import Mathlib

/-!
Shallow embedding of `src/flaskext/seasurf.py` (flask-seasurf, a CSRF
defense extension for Flask) and verification of its specification.

Modelling conventions:
  * Python dict-like lookups (`request.headers`, `request.form`,
    `request.cookies`) are association lists `List (String × String)`;
    the method `d.get(k, default)` is `dictGetD d k default` and
    `d.get(k)` is `dictGet d k` (returning `Option String`).
  * The standard library function `urlparse.urlparse` is an external
    collaborator; the embedding takes it as an explicit function
    argument `urlparse : String → ParsedUrl` returning the parsed
    scheme, hostname and port that `_same_origin` projects out.
  * The Flask session object is modelled by `Session`, whose single
    field `csrf_token` is the value bound to the item key `_csrf_token`
    (the only session key this module ever touches).
  * `abort(403)` with the logged reason string is modelled by the
    `Decision.deny 403 reason` outcome; falling off the end of
    `_before_request` (Python returns `None`) is `Decision.allow`.
  * The CSPRNG draw inside `_generate_token` is modelled by passing the
    freshly generated token string to `_set_token` as an argument.
-/

/-- Lookup in a Python dict modelled as an association list: first
binding of the key, as `dict.get(k)` (returns `None` when absent). -/
def dictGet (d : List (String × String)) (k : String) : Option String :=
  (d.find? (fun p => p.1 == k)).map (fun p => p.2)

/-- Python `dict.get(k, default)`. -/
def dictGetD (d : List (String × String)) (k : String) (dflt : String) : String :=
  (dictGet d k).getD dflt

/-- Result of `urlparse.urlparse`: the three components that
`_same_origin` (seasurf.py line 48) projects out of a parsed URL. -/
structure ParsedUrl where
  scheme : String
  hostname : Option String
  port : Option Nat
deriving DecidableEq

/-- Line 29 of seasurf.py. -/
def REASON_NO_REFERER : String := "Referer checking failed: no referer."

/-- Line 30 of seasurf.py; the Python format string
`Referer checking failed: ... does not match ... .` applied to the two
origins, modelled by string concatenation. -/
def REASON_BAD_REFERER (referer allowed : String) : String :=
  "Referer checking failed: " ++ referer ++ " does not match " ++ allowed ++ "."

/-- Line 31 of seasurf.py (declared in the source but never used). -/
def REASON_NO_CSRF_TOKEN : String := "CSRF token not set."

/-- Line 32 of seasurf.py. -/
def REASON_BAD_TOKEN : String := "CSRF token missing or incorrect."

/-- Lines 45-48 of seasurf.py: two URLs share the same origin when
their parsed (scheme, hostname, port) triples coincide. -/
def _same_origin (urlparse : String → ParsedUrl) (url1 url2 : String) : Bool :=
  let p1 := urlparse url1
  let p2 := urlparse url2
  decide ((p1.scheme, p1.hostname, p1.port) = (p2.scheme, p2.hostname, p2.port))

/-- Lines 51-58 of seasurf.py: return False on a length mismatch,
otherwise OR-accumulate the XOR of the character codes across all
positions of `zip(val1, val2)` and test the accumulator against zero.
Python `ord` on a character is `Char.toNat`. -/
def _constant_time_compare (val1 val2 : String) : Bool :=
  if val1.length != val2.length then false
  else
    ((val1.data.zip val2.data).foldl
      (fun result p => result ||| (p.1.toNat ^^^ p.2.toNat)) 0) == 0

/-- A Flask view function: `viewId` stands for the identity of the
Python function object, `endpointName` for the endpoint string Flask
derives from it and exposes as `request.endpoint` when routing to it. -/
structure View where
  viewId : Nat
  endpointName : String
deriving DecidableEq

/-- Embeds the Python membership test `request.endpoint in
self._exempt_views` on line 160 of seasurf.py. The list
`self._exempt_views` holds the view function objects themselves (line
139 appends `view`), while `request.endpoint` is an endpoint string.
Python `in` compares elementwise with `==`, and equality between a
`str` and a function object is always False (neither type implements a
cross-type equality), whatever the string and the view are. -/
def py_str_eq_view (_ : String) (_ : View) : Bool := false

/-- Lines 123-140 of seasurf.py: the `exempt` decorator appends the
view function to `self._exempt_views` (and returns the view unchanged,
which the model drops since decoration does not alter the view). -/
def exempt (_exempt_views : List View) (view : View) : List View :=
  _exempt_views ++ [view]

/-- The request fields that `_before_request` reads (spec section 6:
method, endpoint identity, transport security flag, headers, form
fields, cookies, root URL, path). -/
structure Request where
  method : String
  endpoint : String
  is_secure : Bool
  headers : List (String × String)
  form : List (String × String)
  cookies : List (String × String)
  url_root : String
  path : String
deriving DecidableEq

/-- The Flask session store restricted to the one key this module
touches: `csrf_token` is the value bound to the item key `_csrf_token`
(`none` when the session holds no binding for it). -/
structure Session where
  csrf_token : Option String
deriving DecidableEq

/-- The outgoing response: the cookies set on it (name, value, max_age
triples as passed to `response.set_cookie`) and its Vary header list. -/
structure Response where
  cookies : List (String × String × Nat)
  vary : List String
deriving DecidableEq

/-- Records a `response.set_cookie(name, value, max_age)` call. -/
def Response.set_cookie (r : Response) (key value : String) (max_age : Nat) : Response :=
  ⟨r.cookies ++ [(key, value, max_age)], r.vary⟩

/-- Records a `response.vary.add(header)` call; `vary` is a set, so a
header already present is not added again. -/
def Response.vary_add (r : Response) (h : String) : Response :=
  if r.vary.contains h then r else ⟨r.cookies, r.vary ++ [h]⟩

/-- The configuration `init_app` loads (lines 114-118 of seasurf.py):
the CSRF_DISABLE/TESTING flag and the cookie timeout (the secret key
only feeds `_generate_token`, which the model abstracts over). -/
structure Config where
  _csrf_disable : Bool
  _csrf_timeout : Nat
deriving DecidableEq

/-- Outcome of the pre-request hook: Python `return None` (fall
through to the application handler) is `allow`; `abort(403)` together
with the logged reason string is `deny 403 reason` (the log line also
carries `request.path`, which the model keeps on the request). -/
inductive Decision where
  | allow : Decision
  | deny (status : Nat) (reason : String) : Decision
deriving DecidableEq

/-- Line 177 of seasurf.py: the canonical side of the token comparison
is `request.cookies.get(_csrf_token, empty)`, the token the request
carries in its `_csrf_token` cookie. -/
def canonical_token (request : Request) : String :=
  dictGetD request.cookies "_csrf_token" ""

/-- Lines 179-184 of seasurf.py: the client-supplied token starts
empty, is taken from the `_csrf_token` form field when the method is
POST, and falls back to the `HTTP_X_CSRFTOKEN` header lookup whenever
the value so far is the empty string. -/
def supplied_token (request : Request) : String :=
  let request_csrf_token :=
    if request.method == "POST" then dictGetD request.form "_csrf_token" "" else ""
  if request_csrf_token == "" then dictGetD request.headers "HTTP_X_CSRFTOKEN" ""
  else request_csrf_token

/-- Lines 177-189 of seasurf.py, the token comparison every unsafe
non-exempt request falls through to: deny with `REASON_BAD_TOKEN` when
`_constant_time_compare` rejects the pair, otherwise fall off the end
of `_before_request` (allow). The session component is threaded
through unchanged: no statement in this code touches the session. -/
def validate_token (request : Request) (s : Session) : Decision × Session :=
  if !(_constant_time_compare (supplied_token request) (canonical_token request)) then
    (Decision.deny 403 REASON_BAD_TOKEN, s)
  else (Decision.allow, s)

/-- Lines 142-189 of seasurf.py, `SeaSurf._before_request`. The source
is a chain of early returns: validation disabled, safe method (the
source tests `request.method not in (GET, HEAD, OPTIONS, TRACE)` and
the model states the same test with the polarity of the branches
flipped), exempt view, and for secure requests the strict referer
check on the `HTTP_REFERER` header lookup against `request.url_root`;
every surviving request reaches the token comparison. The session is
threaded through so that theorems can state what the hook does to it:
the source never reads or writes the session here. -/
def _before_request (urlparse : String → ParsedUrl) (cfg : Config)
    (_exempt_views : List View) (request : Request) (s : Session) :
    Decision × Session :=
  if cfg._csrf_disable then (Decision.allow, s)
  else if ["GET", "HEAD", "OPTIONS", "TRACE"].contains request.method then
    (Decision.allow, s)
  else if _exempt_views.any (py_str_eq_view request.endpoint) then (Decision.allow, s)
  else if request.is_secure then
    match dictGet request.headers "HTTP_REFERER" with
    | none => (Decision.deny 403 REASON_NO_REFERER, s)
    | some referer =>
      if !(_same_origin urlparse referer request.url_root) then
        (Decision.deny 403 (REASON_BAD_REFERER referer request.url_root), s)
      else validate_token request s
  else validate_token request s

/-- Embeds the guard `hasattr(session, _csrf_token)` on line 196 of
seasurf.py. The Flask session is a dict-like object and every write
this module performs on it is an item assignment
(`session[_csrf_token] = ...`, line 214); item assignment stores under
the mapping, not as an attribute of the object, so an attribute named
`_csrf_token` never exists on the session object and `hasattr` returns
False for every session state this code can produce, whether or not
the session holds a token binding. -/
def hasattr_session_csrf_token (_ : Session) : Bool := false

/-- Lines 191-203 of seasurf.py, `SeaSurf._after_request`: when the
`hasattr` guard fails the response is returned unmodified; otherwise
the `_csrf_token` cookie is set to `session[_csrf_token]` with the
configured timeout as max age and `Cookie` is added to the Vary set.
The session is threaded through unchanged (the source only reads it). -/
def _after_request (cfg : Config) (s : Session) (response : Response) :
    Response × Session :=
  if !(hasattr_session_csrf_token s) then (response, s)
  else
    (((response.set_cookie "_csrf_token" (s.csrf_token.getD "") cfg._csrf_timeout).vary_add
        "Cookie"),
      s)

/-- Lines 210-215 of seasurf.py, `SeaSurf._set_token` (exposed to the
templates as the `csrf_token` Jinja global on line 112): a fresh token
is generated unconditionally (the argument `generated` stands for the
draw `self._generate_token()` on line 212), bound to the session only
when the session holds no `_csrf_token` item, and the session binding
is returned. -/
def _set_token (generated : String) (s : Session) : String × Session :=
  let s_after : Session := if s.csrf_token.isNone then ⟨some generated⟩ else s
  (s_after.csrf_token.getD "", s_after)

/-! Shared lemmas about the constant-time comparison. -/

/-- A bitwise OR of naturals is zero exactly when both sides are. -/
theorem nat_lor_eq_zero (a b : Nat) : a ||| b = 0 ↔ a = 0 ∧ b = 0 := by
  constructor
  · intro h
    constructor
    · refine Nat.eq_of_testBit_eq (fun i => ?_)
      have h2 : (a ||| b).testBit i = Nat.testBit 0 i := by rw [h]
      rw [Nat.testBit_lor, Nat.zero_testBit] at h2
      simp only [Nat.zero_testBit]
      exact (Bool.or_eq_false_iff.mp h2).1
    · refine Nat.eq_of_testBit_eq (fun i => ?_)
      have h2 : (a ||| b).testBit i = Nat.testBit 0 i := by rw [h]
      rw [Nat.testBit_lor, Nat.zero_testBit] at h2
      simp only [Nat.zero_testBit]
      exact (Bool.or_eq_false_iff.mp h2).2
  · rintro ⟨rfl, rfl⟩
    rfl

/-- Character codes are injective. -/
theorem char_toNat_inj {c d : Char} (h : c.toNat = d.toNat) : c = d :=
  Char.ext (UInt32.ext h)

/-- The OR-accumulating fold of `_constant_time_compare` ends at zero
exactly when the accumulator started at zero and every zipped pair of
characters agrees. -/
theorem ctc_fold_zero (l : List (Char × Char)) (a : Nat) :
    (l.foldl (fun result p => result ||| (p.1.toNat ^^^ p.2.toNat)) a = 0) ↔
    (a = 0 ∧ ∀ p ∈ l, p.1 = p.2) := by
  induction l generalizing a with
  | nil => simp
  | cons p l ih =>
    simp only [List.foldl_cons, List.mem_cons]
    rw [ih, nat_lor_eq_zero]
    constructor
    · rintro ⟨⟨ha, hx⟩, hall⟩
      refine ⟨ha, fun q hq => ?_⟩
      rcases hq with rfl | hq
      · exact char_toNat_inj (Nat.xor_eq_zero.mp hx)
      · exact hall q hq
    · rintro ⟨ha, hall⟩
      have hp : p.1 = p.2 := hall p (Or.inl rfl)
      refine ⟨⟨ha, ?_⟩, fun q hq => hall q (Or.inr hq)⟩
      rw [hp]
      exact Nat.xor_eq_zero.mpr rfl

/-- On equal-length lists, elementwise agreement of the zip is list
equality. -/
theorem zip_forall_eq (l1 l2 : List Char) (h : l1.length = l2.length) :
    (∀ p ∈ l1.zip l2, p.1 = p.2) ↔ l1 = l2 := by
  induction l1 generalizing l2 with
  | nil =>
    cases l2 with
    | nil => simp
    | cons b l2 => simp at h
  | cons a l1 ih =>
    cases l2 with
    | nil => simp at h
    | cons b l2 =>
      simp only [List.zip_cons_cons, List.mem_cons, List.cons.injEq]
      rw [← ih l2 (by simpa using h)]
      constructor
      · intro hall
        exact ⟨hall (a, b) (Or.inl rfl), fun p hp => hall p (Or.inr hp)⟩
      · rintro ⟨rfl, hall⟩ p hp
        rcases hp with rfl | hp
        · rfl
        · exact hall p hp

/-- Functional specification of `_constant_time_compare`: it accepts
exactly the equal pairs of strings (two empty strings included). -/
theorem ctc_true_iff (A B : String) : _constant_time_compare A B = true ↔ A = B := by
  unfold _constant_time_compare
  by_cases h : A.length = B.length
  · rw [if_neg (by simp [h])]
    have hlen : A.data.length = B.data.length := h
    rw [beq_iff_eq, ctc_fold_zero, zip_forall_eq A.data B.data hlen]
    constructor
    · intro hd
      exact String.ext hd.2
    · intro hd
      exact ⟨rfl, by rw [hd]⟩
  · rw [if_pos (by simp [h])]
    constructor
    · intro hf
      exact absurd hf (by simp)
    · intro hAB
      exact absurd (congrArg String.length hAB) h

/-- Bridge from the Boolean safe-method test of the source to the
propositional form: a method on which `contains` returns false is none
of the four safe methods. -/
theorem not_safe_of_contains_false {m : String}
    (hm : ((["GET", "HEAD", "OPTIONS", "TRACE"] : List String).contains m) = false) :
    ¬(m = "GET" ∨ m = "HEAD" ∨ m = "OPTIONS" ∨ m = "TRACE") := by
  intro hor
  rcases hor with h | h | h | h <;> subst h <;> exact absurd hm (by decide)

/-! Claim theorems. -/

/-- C7: for strings of equal length the constant-time comparison
returns true exactly on equal strings, and every pair of strings of
unequal length is rejected. -/
theorem c7_constant_time_compare_spec (A B : String) :
    (A.length = B.length → (_constant_time_compare A B = true ↔ A = B))
    ∧ (A.length ≠ B.length → _constant_time_compare A B = false) := by
  constructor
  · intro _
    exact ctc_true_iff A B
  · intro h
    cases hc : _constant_time_compare A B
    · rfl
    · exact absurd (congrArg String.length ((ctc_true_iff A B).mp hc)) h

/-- Witness for C7 at concrete strings: equal strings accepted, a
one-character difference rejected, a length mismatch rejected. -/
theorem c7_constant_time_compare_spec_witness :
    _constant_time_compare "abc123" "abc123" = true
    ∧ _constant_time_compare "abc123" "abc124" = false
    ∧ _constant_time_compare "abc" "abc123" = false := by
  refine ⟨((c7_constant_time_compare_spec "abc123" "abc123").1 rfl).mpr rfl, ?_,
    (c7_constant_time_compare_spec "abc" "abc123").2 (by decide)⟩
  have h := (c7_constant_time_compare_spec "abc123" "abc124").1 rfl
  cases hc : _constant_time_compare "abc123" "abc124"
  · rfl
  · exact absurd (h.mp hc) (by decide)

/-- C8: `_set_token` is idempotent across one session: two successive
calls (each with its own fresh draw) return the same token; a session
that already holds a binding keeps it and gets it returned, and a
fresh session gets the generated token bound and returned. -/
theorem c8_set_token_idempotent (g1 g2 : String) (s : Session) :
    (_set_token g2 (_set_token g1 s).2).1 = (_set_token g1 s).1
    ∧ (∀ t, s.csrf_token = some t → _set_token g1 s = (t, s))
    ∧ (s.csrf_token = none → _set_token g1 s = (g1, ⟨some g1⟩)) := by
  refine ⟨?_, ?_, ?_⟩
  · cases hs : s.csrf_token <;> simp [_set_token, hs]
  · intro t ht
    simp [_set_token, ht]
  · intro h
    simp [_set_token, h]

/-- Witness for C8 on a fresh session and two distinct draws. -/
theorem c8_set_token_idempotent_witness :
    (_set_token "g2" (_set_token "g1" (⟨none⟩ : Session)).2).1
      = (_set_token "g1" (⟨none⟩ : Session)).1
    ∧ _set_token "g1" (⟨none⟩ : Session) = ("g1", ⟨some "g1"⟩) :=
  ⟨(c8_set_token_idempotent "g1" "g2" ⟨none⟩).1,
   (c8_set_token_idempotent "g1" "g2" ⟨none⟩).2.2 rfl⟩

/-- C9: every request whose method is GET, HEAD, OPTIONS or TRACE is
allowed by the pre-request hook, whatever the configuration, exemption
registry, token material, transport security or headers. -/
theorem c9_safe_methods_allowed (urlparse : String → ParsedUrl) (cfg : Config)
    (views : List View) (request : Request) (s : Session)
    (h : request.method = "GET" ∨ request.method = "HEAD" ∨ request.method = "OPTIONS"
      ∨ request.method = "TRACE") :
    (_before_request urlparse cfg views request s).1 = Decision.allow := by
  unfold _before_request
  rcases h with h | h | h | h <;> rw [h] <;> cases hd : cfg._csrf_disable <;> simp [hd]

/-- Witness for C9: a GET request with no token material at all is
allowed. -/
theorem c9_safe_methods_allowed_witness :
    (_before_request (fun _ => ⟨"", none, none⟩) ⟨false, 432000⟩ []
      ⟨"GET", "ep", false, [], [], [], "http://x/", "/"⟩ ⟨none⟩).1 = Decision.allow :=
  c9_safe_methods_allowed _ _ _ _ _ (Or.inl rfl)

/-- C10: neither request hook writes the session: the session
component after the pre-request hook (allowed or denied) and after the
post-request hook equals the session before; within the embedded
module only `_set_token`, the template-facing accessor, rebinds it. -/
theorem c10_hooks_preserve_session (urlparse : String → ParsedUrl) (cfg : Config)
    (views : List View) (request : Request) (s : Session) (response : Response) :
    (_before_request urlparse cfg views request s).2 = s
    ∧ (_after_request cfg s response).2 = s := by
  constructor
  · unfold _before_request validate_token
    repeat' split
    all_goals rfl
  · unfold _after_request
    split
    · rfl
    · rfl

/-- C4: for an enabled, unsafe-method, non-exempt, secure-transport
request the referer check behaves as specified: a missing
`HTTP_REFERER` lookup is denied with the no-referer reason; a referer
whose parsed origin differs from that of the root URL is denied with
the mismatch reason naming both URLs; a matching referer falls through
to the token comparison. -/
theorem c4_secure_referer_check (urlparse : String → ParsedUrl) (cfg : Config)
    (views : List View) (request : Request) (s : Session)
    (hdis : cfg._csrf_disable = false)
    (hm : (["GET", "HEAD", "OPTIONS", "TRACE"].contains request.method) = false)
    (hex : (views.any (py_str_eq_view request.endpoint)) = false)
    (hsec : request.is_secure = true) :
    (dictGet request.headers "HTTP_REFERER" = none →
      (_before_request urlparse cfg views request s).1 = Decision.deny 403 REASON_NO_REFERER)
    ∧ (∀ referer, dictGet request.headers "HTTP_REFERER" = some referer →
        _same_origin urlparse referer request.url_root = false →
        (_before_request urlparse cfg views request s).1 =
          Decision.deny 403 (REASON_BAD_REFERER referer request.url_root))
    ∧ (∀ referer, dictGet request.headers "HTTP_REFERER" = some referer →
        _same_origin urlparse referer request.url_root = true →
        _before_request urlparse cfg views request s = validate_token request s) := by
  have hm2 := not_safe_of_contains_false hm
  refine ⟨?_, ?_, ?_⟩
  · intro hnone
    unfold _before_request
    simp [hdis, hm2, py_str_eq_view, hsec, hnone]
  · intro referer hsome hmis
    unfold _before_request
    simp [hdis, hm2, py_str_eq_view, hsec, hsome, hmis]
  · intro referer hsome hsame
    unfold _before_request
    simp [hdis, hm2, py_str_eq_view, hsec, hsome, hsame]

/-- Witness for C4: a secure POST whose referer parses to the origin
of evil.example against a root URL at good.example is denied with the
mismatch reason naming both URLs. -/
theorem c4_secure_referer_check_witness :
    (_before_request
      (fun u => if u == "https://evil.example/" then ⟨"https", some "evil.example", none⟩
        else ⟨"https", some "good.example", none⟩)
      ⟨false, 432000⟩ []
      ⟨"POST", "ep", true, [("HTTP_REFERER", "https://evil.example/")], [], [],
        "https://good.example/", "/"⟩ ⟨none⟩).1 =
      Decision.deny 403 (REASON_BAD_REFERER "https://evil.example/" "https://good.example/") :=
  (c4_secure_referer_check
    (fun u => if u == "https://evil.example/" then ⟨"https", some "evil.example", none⟩
      else ⟨"https", some "good.example", none⟩)
    ⟨false, 432000⟩ []
    ⟨"POST", "ep", true, [("HTTP_REFERER", "https://evil.example/")], [], [],
      "https://good.example/", "/"⟩ ⟨none⟩ rfl (by decide) rfl rfl).2.1
    "https://evil.example/" (by decide) (by decide)

/-- Counterexample to C1 as stated: an enabled, insecure, non-exempt
POST whose session holds the bound token abc123 and whose form
supplies abc123 is DENIED, because the canonical side of the
comparison is read from the `_csrf_token` request cookie (absent
here), not from the session binding. -/
theorem c1_counterexample_session_token_ignored :
    (⟨some "abc123"⟩ : Session).csrf_token = some "abc123"
    ∧ dictGetD (⟨"POST", "ep", false, [], [("_csrf_token", "abc123")], [],
        "http://x/", "/"⟩ : Request).form "_csrf_token" "" = "abc123"
    ∧ (_before_request (fun _ => ⟨"http", some "x", none⟩) ⟨false, 432000⟩ []
        ⟨"POST", "ep", false, [], [("_csrf_token", "abc123")], [], "http://x/", "/"⟩
        ⟨some "abc123"⟩).1 = Decision.deny 403 REASON_BAD_TOKEN := by
  decide

/-- C1 (amended): for every enabled, unsafe-method, non-exempt request
past the referer check, the canonical value used in the token
comparison is the `_csrf_token` cookie carried by the request itself
(empty string when absent), whatever the session holds; a request
whose cookie and supplied form token are both abc123 is allowed and
one supplying abc124 against cookie abc123 is denied. -/
theorem c1_token_comparison_reads_request_cookie (urlparse : String → ParsedUrl)
    (cfg : Config) (views : List View) (request : Request) (s : Session)
    (hdis : cfg._csrf_disable = false)
    (hm : (["GET", "HEAD", "OPTIONS", "TRACE"].contains request.method) = false)
    (hex : (views.any (py_str_eq_view request.endpoint)) = false)
    (href : request.is_secure = false
      ∨ ∃ referer, dictGet request.headers "HTTP_REFERER" = some referer
          ∧ _same_origin urlparse referer request.url_root = true) :
    (_before_request urlparse cfg views request s).1 =
      (if _constant_time_compare (supplied_token request)
          (dictGetD request.cookies "_csrf_token" "")
       then Decision.allow
       else Decision.deny 403 REASON_BAD_TOKEN) := by
  have hm2 := not_safe_of_contains_false hm
  have hval : (validate_token request s).1 =
      (if _constant_time_compare (supplied_token request)
          (dictGetD request.cookies "_csrf_token" "")
       then Decision.allow
       else Decision.deny 403 REASON_BAD_TOKEN) := by
    unfold validate_token canonical_token
    cases hc : _constant_time_compare (supplied_token request)
        (dictGetD request.cookies "_csrf_token" "") <;>
      simp [hc]
  cases hsec : request.is_secure
  · unfold _before_request
    simp only [hdis, Bool.false_eq_true, if_false, hsec]
    simp [hm2, py_str_eq_view]
    exact hval
  · rcases href with h | ⟨referer, hsome, hsame⟩
    · simp [h] at hsec
    · unfold _before_request
      simp [hdis, hm2, py_str_eq_view, hsec, hsome, hsame]
      exact hval

/-- Witness for the amended C1: with the canonical token carried by
the `_csrf_token` request cookie, form token abc123 against cookie
abc123 is allowed and form token abc124 against cookie abc123 is
denied. -/
theorem c1_token_comparison_reads_request_cookie_witness :
    (_before_request (fun _ => ⟨"http", some "x", none⟩) ⟨false, 432000⟩ []
      ⟨"POST", "ep", false, [], [("_csrf_token", "abc123")], [("_csrf_token", "abc123")],
        "http://x/", "/"⟩ ⟨none⟩).1 = Decision.allow
    ∧ (_before_request (fun _ => ⟨"http", some "x", none⟩) ⟨false, 432000⟩ []
      ⟨"POST", "ep", false, [], [("_csrf_token", "abc124")], [("_csrf_token", "abc123")],
        "http://x/", "/"⟩ ⟨none⟩).1 = Decision.deny 403 REASON_BAD_TOKEN := by
  constructor
  · exact (c1_token_comparison_reads_request_cookie (fun _ => ⟨"http", some "x", none⟩)
      ⟨false, 432000⟩ []
      ⟨"POST", "ep", false, [], [("_csrf_token", "abc123")], [("_csrf_token", "abc123")],
        "http://x/", "/"⟩ ⟨none⟩ rfl (by decide) rfl (Or.inl rfl)).trans (by decide)
  · exact (c1_token_comparison_reads_request_cookie (fun _ => ⟨"http", some "x", none⟩)
      ⟨false, 432000⟩ []
      ⟨"POST", "ep", false, [], [("_csrf_token", "abc124")], [("_csrf_token", "abc123")],
        "http://x/", "/"⟩ ⟨none⟩ rfl (by decide) rfl (Or.inl rfl)).trans (by decide)

/-- Counterexample to C5 as stated: a POST with no form token whose
`HTTP_X_CSRFTOKEN` header equals the session-bound token abc123 is
DENIED, because the header fallback is compared against the
`_csrf_token` request cookie (absent here), not against the session
binding. -/
theorem c5_counterexample_header_vs_session :
    (⟨some "abc123"⟩ : Session).csrf_token = some "abc123"
    ∧ dictGet (⟨"POST", "ep", false, [("HTTP_X_CSRFTOKEN", "abc123")], [], [],
        "http://x/", "/"⟩ : Request).form "_csrf_token" = none
    ∧ dictGet (⟨"POST", "ep", false, [("HTTP_X_CSRFTOKEN", "abc123")], [], [],
        "http://x/", "/"⟩ : Request).headers "HTTP_X_CSRFTOKEN" = some "abc123"
    ∧ (_before_request (fun _ => ⟨"http", some "x", none⟩) ⟨false, 432000⟩ []
        ⟨"POST", "ep", false, [("HTTP_X_CSRFTOKEN", "abc123")], [], [], "http://x/", "/"⟩
        ⟨some "abc123"⟩).1 = Decision.deny 403 REASON_BAD_TOKEN := by
  decide

/-- C5 (amended): for every POST with no `_csrf_token` form field the
supplied token is the `HTTP_X_CSRFTOKEN` header lookup, absence of
both form field and header yields the empty supplied token, and an
enabled, non-exempt, insecure such POST whose header token equals the
`_csrf_token` request cookie value is ALLOWED. -/
theorem c5_post_header_fallback (urlparse : String → ParsedUrl) (cfg : Config)
    (views : List View) (request : Request) (s : Session)
    (hdis : cfg._csrf_disable = false)
    (hm : request.method = "POST")
    (hform : dictGet request.form "_csrf_token" = none)
    (hex : (views.any (py_str_eq_view request.endpoint)) = false)
    (hsec : request.is_secure = false) :
    supplied_token request = dictGetD request.headers "HTTP_X_CSRFTOKEN" ""
    ∧ (dictGet request.headers "HTTP_X_CSRFTOKEN" = none → supplied_token request = "")
    ∧ (dictGetD request.headers "HTTP_X_CSRFTOKEN" ""
          = dictGetD request.cookies "_csrf_token" "" →
        (_before_request urlparse cfg views request s).1 = Decision.allow) := by
  have hsup : supplied_token request = dictGetD request.headers "HTTP_X_CSRFTOKEN" "" := by
    unfold supplied_token
    simp [hm, dictGetD, hform]
  refine ⟨hsup, ?_, ?_⟩
  · intro hn
    rw [hsup]
    simp [dictGetD, hn]
  · intro heq
    have hm2 : ¬(request.method = "GET" ∨ request.method = "HEAD"
        ∨ request.method = "OPTIONS" ∨ request.method = "TRACE") := by
      rw [hm]
      decide
    have hctc : _constant_time_compare (supplied_token request) (canonical_token request)
        = true := by
      have hcan : canonical_token request = dictGetD request.cookies "_csrf_token" "" := rfl
      rw [hsup, hcan, heq]
      exact (ctc_true_iff _ _).mpr rfl
    unfold _before_request
    simp [hdis, hm2, py_str_eq_view, hsec]
    unfold validate_token
    simp [hctc]

/-- Witness for the amended C5: a POST with no form token, header
token abc123 and cookie token abc123 has supplied token abc123 and is
allowed. -/
theorem c5_post_header_fallback_witness :
    supplied_token ⟨"POST", "ep", false, [("HTTP_X_CSRFTOKEN", "abc123")], [],
      [("_csrf_token", "abc123")], "http://x/", "/"⟩ = "abc123"
    ∧ (_before_request (fun _ => ⟨"http", some "x", none⟩) ⟨false, 432000⟩ []
        ⟨"POST", "ep", false, [("HTTP_X_CSRFTOKEN", "abc123")], [],
          [("_csrf_token", "abc123")], "http://x/", "/"⟩ ⟨none⟩).1 = Decision.allow := by
  have h := c5_post_header_fallback (fun _ => ⟨"http", some "x", none⟩) ⟨false, 432000⟩ []
    ⟨"POST", "ep", false, [("HTTP_X_CSRFTOKEN", "abc123")], [],
      [("_csrf_token", "abc123")], "http://x/", "/"⟩ ⟨none⟩ rfl rfl (by decide) rfl rfl
  exact ⟨h.1.trans (by decide), h.2.2 (by decide)⟩

/-- C2 failing input, evaluated on the code: a session whose
`_csrf_token` item is bound to abc123 passes through the post-request
hook with the response returned unmodified, no cookie set and no Vary
marker, because the guard `hasattr(session, _csrf_token)` tests for an
attribute that item assignment never creates and is therefore False
even though the session holds a token. -/
theorem c2_after_request_never_sets_cookie :
    (⟨some "abc123"⟩ : Session).csrf_token = some "abc123"
    ∧ (_after_request ⟨false, 432000⟩ ⟨some "abc123"⟩ ⟨[], []⟩).1 = (⟨[], []⟩ : Response) := by
  decide

/-- C3 failing input, evaluated on the code: a view registered through
`exempt` is still validated, because line 160 compares the endpoint
string against the registered view function objects and that
comparison never succeeds; an unsafe request routed to the exempted
view that supplies no token while carrying a `_csrf_token` cookie is
denied. -/
theorem c3_exempt_view_still_validated :
    exempt [] ⟨0, "myview"⟩ = [(⟨0, "myview"⟩ : View)]
    ∧ (⟨"POST", "myview", false, [], [], [("_csrf_token", "abc123")], "http://x/", "/"⟩
        : Request).endpoint = (⟨0, "myview"⟩ : View).endpointName
    ∧ (_before_request (fun _ => ⟨"http", some "x", none⟩) ⟨false, 432000⟩
        (exempt [] ⟨0, "myview"⟩)
        ⟨"POST", "myview", false, [], [], [("_csrf_token", "abc123")], "http://x/", "/"⟩
        ⟨none⟩).1 = Decision.deny 403 REASON_BAD_TOKEN := by
  decide

/-- C6 failing input, evaluated on the code: an enabled, unsafe-method,
non-exempt, insecure request that reaches the token comparison with
supplied token and canonical token both empty is ALLOWED, because
`_constant_time_compare` accepts two empty strings and the code checks
no non-emptiness condition. -/
theorem c6_empty_tokens_allowed :
    supplied_token ⟨"POST", "ep", false, [], [], [], "http://x/", "/"⟩ = ""
    ∧ canonical_token ⟨"POST", "ep", false, [], [], [], "http://x/", "/"⟩ = ""
    ∧ _constant_time_compare "" "" = true
    ∧ (_before_request (fun _ => ⟨"http", some "x", none⟩) ⟨false, 432000⟩ []
        ⟨"POST", "ep", false, [], [], [], "http://x/", "/"⟩ ⟨none⟩).1 = Decision.allow := by
  decide
